import Mathlib

/-!
Shallow embedding of the training script src/dog_identify.py.

The script trains an image classifier with an exponential-moving-average
(EMA) shadow model, mixed-precision gradient accumulation, a
cosine-to-plateau learning-rate handoff at epoch 12, a checkpoint policy
driven by a single shared best accuracy, and composite-metric early
stopping. Tensors are abstracted to lists of rational parameter values;
a model under evaluation is abstracted to a function from a batch to its
(number of correct predictions, mean per-sample loss) pair, which is all
the metric bookkeeping reads from it. Python float arithmetic is embedded
as exact rational arithmetic; a Python exception is an Except error value.
-/

/-- Errors the embedded functions can raise: the ValueError thrown by
evaluate_accuracy when use_ema is set without an ema_model, and the
ZeroDivisionError raised by a final division when the sample count is 0. -/
inductive PyErr where
  | valueErrorEmaRequired : PyErr
  | zeroDivision : PyErr
deriving DecidableEq

/-- One model parameter: its value and its requires_grad flag. -/
structure Param where
  value : ℚ
  requiresGrad : Bool
deriving DecidableEq

/-- State of ModelEMA (src/dog_identify.py lines 43-55): the shadow
parameter list and the decay-schedule constants. min_decay is the
hardcoded 0.995 of line 47. -/
structure ModelEMA where
  ema : List Param
  initialDecay : ℚ
  minDecay : ℚ
  totalEpochs : ℕ
deriving DecidableEq

/-- ModelEMA.__init__ (lines 44-55): deepcopy the model, clear
requires_grad on every shadow parameter, then copy each live parameter
value into the shadow. The constructor defaults are decay = 0.999 and
total_epochs = 50; min_decay is fixed at 0.995. -/
def ModelEMA.init (model : List Param) (decay : ℚ) (totalEpochs : ℕ) : ModelEMA :=
  let ema0 := model.map (fun p => { p with requiresGrad := false })
  let ema1 := List.zipWith (fun emaP modelP => { emaP with value := modelP.value }) ema0 model
  { ema := ema1, initialDecay := decay, minDecay := 995 / 1000, totalEpochs := totalEpochs }

/-- The decay computed at the top of ModelEMA.update (lines 59-60):
linear interpolation from initial_decay at epoch 0 towards min_decay at
total_epochs, clamped below at min_decay. -/
def emaDecay (initialDecay minDecay : ℚ) (totalEpochs currentEpoch : ℕ) : ℚ :=
  max (initialDecay - (initialDecay - minDecay) * ((currentEpoch : ℚ) / (totalEpochs : ℚ)))
    minDecay

/-- ModelEMA.update (lines 57-67): recompute the decay, then set each
shadow parameter to shadow*decay + live*(1-decay). The live parameter
list is only read (model_param.detach()), so it is returned unchanged. -/
def ModelEMA.update (e : ModelEMA) (model : List Param) (currentEpoch : ℕ) :
    ModelEMA × List Param :=
  let decay := emaDecay e.initialDecay e.minDecay e.totalEpochs currentEpoch
  let newEma := List.zipWith
    (fun emaParam modelParam =>
      { emaParam with value := emaParam.value * decay + modelParam.value * (1 - decay) })
    e.ema model
  ({ e with ema := newEma }, model)

/-- A validation batch, abstracted to its sample count y.shape[0]. -/
structure EvalBatch where
  size : ℕ
deriving DecidableEq

/-- A model under evaluation, abstracted to the two numbers the metric
loop reads per batch: (correct-prediction count, mean per-sample loss). -/
def EvalModel : Type := EvalBatch → ℕ × ℚ

/-- Wrapper mirroring the ema_model argument of evaluate_accuracy, whose
.ema attribute holds the shadow model that is actually run. -/
structure EvalEMARef where
  ema : EvalModel

/-- The accumulation loop of evaluate_accuracy (lines 172-181):
acc_sum collects correct counts, loss_sum collects loss * batch size,
n collects sample counts, in iteration order. -/
def evalLoop (model : EvalModel) (data_iter : List EvalBatch) : ℚ × ℚ × ℕ :=
  data_iter.foldl
    (fun acc b =>
      let out := model b
      (acc.1 + (out.1 : ℚ), acc.2.1 + out.2 * (b.size : ℚ), acc.2.2 + b.size))
    (0, 0, 0)

/-- The tail of evaluate_accuracy (line 182): acc_sum / n and loss_sum / n,
which in Python raises ZeroDivisionError when n = 0. -/
def evalRun (model : EvalModel) (data_iter : List EvalBatch) : Except PyErr (ℚ × ℚ) :=
  let r := evalLoop model data_iter
  if r.2.2 = 0 then Except.error PyErr.zeroDivision
  else Except.ok (r.1 / (r.2.2 : ℚ), r.2.1 / (r.2.2 : ℚ))

/-- evaluate_accuracy (lines 153-182): with use_ema it demands an
ema_model (ValueError otherwise) and evaluates its .ema model; without
use_ema it evaluates the live net. -/
def evaluate_accuracy (data_iter : List EvalBatch) (net : EvalModel) (use_ema : Bool)
    (ema_model : Option EvalEMARef) : Except PyErr (ℚ × ℚ) :=
  match use_ema, ema_model with
  | true, none => Except.error PyErr.valueErrorEmaRequired
  | true, some e => evalRun e.ema data_iter
  | false, _ => evalRun net data_iter

/-- A training batch, abstracted to its sample count y.size(0), the mean
per-sample loss the criterion returns on it, and its number of correct
predictions. -/
structure TrainBatch where
  size : ℕ
  loss : ℚ
  correct : ℕ
deriving DecidableEq

/-- Per-epoch accumulator state of the batch loop in train
(lines 201 and 209-234): the running un-normalized loss sum, the running
correct-prediction sum, the running sample count, and the 1-based batch
numbers after which the optimizer-step block (lines 223-228) ran. -/
structure EpochState where
  trainLossSum : ℚ
  trainAccSum : ℚ
  n : ℕ
  stepsAt : List ℕ
deriving DecidableEq

/-- The batch loop of train (lines 209-234). For batch index batchIdx the
loss is divided by accum_steps before backward (line 216) and multiplied
back for reporting (line 218); the optimizer-step block fires when
(batchIdx + 1) % accum_steps == 0 or batchIdx + 1 == total_batches
(line 222); then the metric sums accumulate sample-weighted (lines
231-234). -/
def trainEpochGo (accumSteps totalBatches : ℕ) :
    ℕ → List TrainBatch → EpochState → EpochState
  | _, [], st => st
  | batchIdx, b :: rest, st =>
    let l := b.loss / (accumSteps : ℚ)
    let unscaledLoss := l * (accumSteps : ℚ)
    let st1 :=
      if (batchIdx + 1) % accumSteps == 0 || batchIdx + 1 == totalBatches then
        { st with stepsAt := st.stepsAt ++ [batchIdx + 1] }
      else st
    let st2 : EpochState :=
      { st1 with
        trainLossSum := st1.trainLossSum + unscaledLoss * (b.size : ℚ),
        trainAccSum := st1.trainAccSum + (b.correct : ℚ),
        n := st1.n + b.size }
    trainEpochGo accumSteps totalBatches (batchIdx + 1) rest st2

/-- One full training epoch over an ordered finite batch list, with
total_batches = len(train_iter) fixed before the loop (line 203). -/
def trainEpoch (accumSteps : ℕ) (batches : List TrainBatch) : EpochState :=
  trainEpochGo accumSteps batches.length 0 batches
    { trainLossSum := 0, trainAccSum := 0, n := 0, stepsAt := [] }

/-- The per-epoch training metrics printed at line 264:
train_l_sum / n and train_acc_sum / n, which in Python raise
ZeroDivisionError when the epoch saw zero samples. -/
def trainEpochMetrics (accumSteps : ℕ) (batches : List TrainBatch) : Except PyErr (ℚ × ℚ) :=
  let st := trainEpoch accumSteps batches
  if st.n = 0 then Except.error PyErr.zeroDivision
  else Except.ok (st.trainLossSum / (st.n : ℚ), st.trainAccSum / (st.n : ℚ))

/-- The mutable epoch-tail state of train: the shared best accuracy
(line 296-304), the best composite metric and the no-improvement counter
of the early-stopping block (lines 189-191, 307-315). -/
structure CkptState where
  bestAcc : ℚ
  bestMetric : ℚ
  noImprove : ℕ
deriving DecidableEq

/-- Result of one epoch tail: the updated state, whether the live and the
EMA checkpoints were written this epoch, and whether the early-stop break
fires before the next epoch. -/
structure EpochResult where
  state : CkptState
  savedLive : Bool
  savedEma : Bool
  stop : Bool
deriving DecidableEq

/-- The model-saving and early-stopping tail of an epoch of train
(lines 296-315). The live checkpoint is written when test_acc > best_acc
and best_acc is updated; the EMA checkpoint is written when ema_test_acc
exceeds the same, just-updated, shared best_acc. The composite metric
test_acc * 0.8 + (1 - test_loss) * 0.2 resets the no-improvement counter
when it strictly exceeds its own best, otherwise increments it, breaking
out of the epoch loop once the counter reaches patience = 12 (line 190). -/
def epochTail (testAcc emaTestAcc testLoss : ℚ) (st : CkptState) : EpochResult :=
  let savedLive := decide (testAcc > st.bestAcc)
  let bestAcc1 := if testAcc > st.bestAcc then testAcc else st.bestAcc
  let savedEma := decide (emaTestAcc > bestAcc1)
  let bestAcc2 := if emaTestAcc > bestAcc1 then emaTestAcc else bestAcc1
  let currentMetric := testAcc * (8 / 10) + (1 - testLoss) * (2 / 10)
  if currentMetric > st.bestMetric then
    { state := { bestAcc := bestAcc2, bestMetric := currentMetric, noImprove := 0 },
      savedLive := savedLive, savedEma := savedEma, stop := false }
  else
    { state := { bestAcc := bestAcc2, bestMetric := st.bestMetric,
                 noImprove := st.noImprove + 1 },
      savedLive := savedLive, savedEma := savedEma,
      stop := decide (st.noImprove + 1 ≥ 12) }

/-- State used to compare against the checkpoint policy the spec
describes. Modelled from the spec: two independent best-accuracy
trackers, one live-only and one EMA-only. -/
structure SpecCkptState where
  bestLive : ℚ
  bestEma : ℚ
deriving DecidableEq

/-- Modelled from the spec: the independent-tracker checkpoint policy of
spec section 4.5, in which each observed accuracy is compared against its
own tracker only. Returns (new state, live write fired, EMA write
fired). Declared solely to compare with the epochTail of the source. -/
def specIndependentCkpt (testAcc emaTestAcc : ℚ) (st : SpecCkptState) :
    SpecCkptState × Bool × Bool :=
  (⟨if testAcc > st.bestLive then testAcc else st.bestLive,
    if emaTestAcc > st.bestEma then emaTestAcc else st.bestEma⟩,
   decide (testAcc > st.bestLive), decide (emaTestAcc > st.bestEma))

/-- Which learning-rate scheduler is recorded as current in the switch
block of train (lines 196, 272, 280). -/
inductive SchedPhase where
  | cosine : SchedPhase
  | plateau : SchedPhase
deriving DecidableEq

/-- Per-group learning-rate bookkeeping touched by the scheduler switch
block (lines 269-280): the current group learning rates, each group
initial_lr, the plateau scheduler base_lrs, the recorded current
scheduler, and the epochs at which each scheduler stepped. -/
structure SchedState where
  lrs : List ℚ
  initialLrs : List ℚ
  baseLrs : List ℚ
  currentScheduler : SchedPhase
  cosineSteps : List ℕ
  plateauSteps : List ℕ

/-- The dynamic scheduler-switch block of train (lines 269-280),
parameterized by the external library steppers: cosineStep models
cosine_scheduler.step(epoch) and plateauStep models
plateau_scheduler.step(test_acc), both of which only rewrite group
learning rates. For epoch < 12 the cosine scheduler steps; otherwise, at
epoch == 12 exactly, every group initial_lr and the plateau base_lrs are
first set to the current group learning rates, and then the plateau
scheduler steps. -/
def schedulerBlock (cosineStep : ℕ → List ℚ → List ℚ) (plateauStep : ℚ → List ℚ → List ℚ)
    (epoch : ℕ) (testAcc : ℚ) (st : SchedState) : SchedState :=
  if epoch < 12 then
    { st with
      lrs := cosineStep epoch st.lrs,
      currentScheduler := SchedPhase.cosine,
      cosineSteps := st.cosineSteps ++ [epoch] }
  else
    let st1 := if epoch = 12 then { st with initialLrs := st.lrs, baseLrs := st.lrs } else st
    { st1 with
      lrs := plateauStep testAcc st1.lrs,
      currentScheduler := SchedPhase.plateau,
      plateauSteps := st1.plateauSteps ++ [epoch] }

/-- Scheduler bookkeeping at the start of training: the configured group
rates are both the current rates and the construction-time baselines. -/
def initialSchedState (lrs0 : List ℚ) : SchedState :=
  { lrs := lrs0, initialLrs := lrs0, baseLrs := lrs0,
    currentScheduler := SchedPhase.cosine, cosineSteps := [], plateauSteps := [] }

/-- The scheduler state after the switch block has run for epochs
0, 1, ..., numEpochs - 1, with accs giving each epoch validation
accuracy. -/
def runScheduler (cosineStep : ℕ → List ℚ → List ℚ) (plateauStep : ℚ → List ℚ → List ℚ)
    (accs : ℕ → ℚ) (lrs0 : List ℚ) : ℕ → SchedState
  | 0 => initialSchedState lrs0
  | e + 1 =>
    schedulerBlock cosineStep plateauStep e (accs e)
      (runScheduler cosineStep plateauStep accs lrs0 e)

/-- Total number of training samples in an epoch. -/
def totalSize (bs : List TrainBatch) : ℕ :=
  (bs.map TrainBatch.size).sum

/-- Sample-weighted training loss numerator: each batch mean loss times
its sample count. -/
def weightedLossSum (bs : List TrainBatch) : ℚ :=
  (bs.map fun b => b.loss * (b.size : ℚ)).sum

/-- Total number of correct training predictions in an epoch. -/
def totalCorrect (bs : List TrainBatch) : ℚ :=
  (bs.map fun b => (b.correct : ℚ)).sum

/-- Total number of validation samples in a stream. -/
def evalTotalSize (s : List EvalBatch) : ℕ :=
  (s.map EvalBatch.size).sum

/-- Total number of correct validation predictions of a model. -/
def evalCorrectSum (m : EvalModel) (s : List EvalBatch) : ℚ :=
  (s.map fun b => (((m b).1 : ℕ) : ℚ)).sum

/-- Sample-weighted validation loss numerator of a model. -/
def evalLossSum (m : EvalModel) (s : List EvalBatch) : ℚ :=
  (s.map fun b => (m b).2 * (b.size : ℚ)).sum

/-! ## Helper lemmas -/

/-- Copying live values into a shadow whose flags were already cleared is
the same as clearing the flags of the live parameters. -/
theorem zipWith_copy_value (model : List Param) :
    List.zipWith (fun emaP modelP => { emaP with value := modelP.value })
      (model.map fun p => { p with requiresGrad := false }) model
      = model.map fun p => { p with requiresGrad := false } := by
  induction model with
  | nil => rfl
  | cons p ps ih => simp [ih]

/-- The shadow created by ModelEMA.init is the live parameter list with
every requires_grad flag cleared. -/
theorem ModelEMA.init_ema (model : List Param) (decay : ℚ) (totalEpochs : ℕ) :
    (ModelEMA.init model decay totalEpochs).ema
      = model.map fun p => { p with requiresGrad := false } := by
  simp [ModelEMA.init, zipWith_copy_value]

/-- A strict-improvement update of a running best is a max. -/
theorem ite_gt_eq_max (x y : ℚ) : (if y > x then y else x) = max x y := by
  by_cases h : y > x
  · simp [h, max_eq_right h.le]
  · simp [h, max_eq_left (not_lt.mp h)]

/-- evalRun can only raise the zero-division error, never the missing-EMA
ValueError. -/
theorem evalRun_ne_emaRequired (m : EvalModel) (s : List EvalBatch) :
    evalRun m s ≠ Except.error PyErr.valueErrorEmaRequired := by
  unfold evalRun
  by_cases h : (evalLoop m s).2.2 = 0 <;> simp [h]

/-- The evaluation loop accumulates the sample-weighted sums of the
stream, in order. -/
theorem evalLoop_eq (m : EvalModel) (s : List EvalBatch) :
    evalLoop m s = (evalCorrectSum m s, evalLossSum m s, evalTotalSize s) := by
  suffices h : ∀ (acc : ℚ × ℚ × ℕ),
      s.foldl (fun acc b =>
        let out := m b
        (acc.1 + (out.1 : ℚ), acc.2.1 + out.2 * (b.size : ℚ), acc.2.2 + b.size)) acc
      = (acc.1 + evalCorrectSum m s, acc.2.1 + evalLossSum m s, acc.2.2 + evalTotalSize s) by
    simpa [evalLoop] using h (0, 0, 0)
  induction s with
  | nil => intro acc; simp [evalCorrectSum, evalLossSum, evalTotalSize]
  | cons b rest ih =>
    intro acc
    simp only [List.foldl_cons]
    rw [ih]
    simp only [evalCorrectSum, evalLossSum, evalTotalSize, List.map_cons, List.sum_cons,
      Prod.mk.injEq]
    refine ⟨by ring, by ring, by omega⟩

/-- The batch loop steps exactly at the 1-based batch numbers j with
j % accum_steps == 0 or j == total_batches, appended in order. -/
theorem trainEpochGo_stepsAt (accumSteps totalBatches : ℕ) (bs : List TrainBatch) :
    ∀ (i : ℕ) (st : EpochState),
      (trainEpochGo accumSteps totalBatches i bs st).stepsAt
        = st.stepsAt ++ (List.range' (i + 1) bs.length).filter
            (fun j => j % accumSteps == 0 || j == totalBatches) := by
  induction bs with
  | nil => intro i st; simp [trainEpochGo]
  | cons b rest ih =>
    intro i st
    by_cases hc : ((i + 1) % accumSteps == 0 || (i + 1) == totalBatches) = true
    · simp [trainEpochGo, hc, ih, List.range'_succ, List.filter_cons]
    · simp [trainEpochGo, hc, ih, List.range'_succ, List.filter_cons]

/-- The batch loop accumulates the total sample count. -/
theorem trainEpochGo_n (accumSteps totalBatches : ℕ) (bs : List TrainBatch) :
    ∀ (i : ℕ) (st : EpochState),
      (trainEpochGo accumSteps totalBatches i bs st).n = st.n + totalSize bs := by
  induction bs with
  | nil => intro i st; simp [trainEpochGo, totalSize]
  | cons b rest ih =>
    intro i st
    by_cases hc : ((i + 1) % accumSteps == 0 || (i + 1) == totalBatches) = true <;>
      simp [trainEpochGo, hc, ih, totalSize] <;> omega

/-- The batch loop accumulates the total correct-prediction count. -/
theorem trainEpochGo_accSum (accumSteps totalBatches : ℕ) (bs : List TrainBatch) :
    ∀ (i : ℕ) (st : EpochState),
      (trainEpochGo accumSteps totalBatches i bs st).trainAccSum
        = st.trainAccSum + totalCorrect bs := by
  induction bs with
  | nil => intro i st; simp [trainEpochGo, totalCorrect]
  | cons b rest ih =>
    intro i st
    by_cases hc : ((i + 1) % accumSteps == 0 || (i + 1) == totalBatches) = true <;>
      simp [trainEpochGo, hc, ih, totalCorrect] <;> ring

/-- The batch loop accumulates the re-scaled, sample-weighted loss sum. -/
theorem trainEpochGo_lossSum (accumSteps totalBatches : ℕ) (bs : List TrainBatch) :
    ∀ (i : ℕ) (st : EpochState),
      (trainEpochGo accumSteps totalBatches i bs st).trainLossSum
        = st.trainLossSum
          + (bs.map fun b =>
              b.loss / (accumSteps : ℚ) * (accumSteps : ℚ) * (b.size : ℚ)).sum := by
  induction bs with
  | nil => intro i st; simp [trainEpochGo]
  | cons b rest ih =>
    intro i st
    by_cases hc : ((i + 1) % accumSteps == 0 || (i + 1) == totalBatches) = true <;>
      simp [trainEpochGo, hc, ih] <;> ring

/-! ## Claim theorems -/

/-- C1. On a stream that yields zero samples, evaluate_accuracy reaches
its final division acc_sum / n with n = 0 and raises a raw
ZeroDivisionError, and the per-epoch training-metric computation of train
does the same; neither fails with a dedicated empty-stream error
condition, contradicting the divide-by-zero guard the specification
requires. -/
theorem c1_empty_stream_raw_zero_division :
    evaluate_accuracy [] (fun _ => (0, 0)) false none = Except.error PyErr.zeroDivision ∧
    trainEpochMetrics 4 [] = Except.error PyErr.zeroDivision :=
  ⟨rfl, rfl⟩

/-- C3 counterexample. The claim says ModelEMA.__init__ fails for every
model with no trainable parameters. On the concrete model consisting of
one parameter with requires_grad already False (so no trainable
parameters at all), the constructor succeeds and returns the exact-copy
shadow, so the claimed failure does not occur. -/
theorem c3_counterexample :
    (ModelEMA.init [{ value := 5, requiresGrad := false }] (999 / 1000) 50).ema
      = [{ value := 5, requiresGrad := false }] := by
  norm_num [ModelEMA.init]

/-- C3 amended. ModelEMA.__init__ never fails, whether or not the model
has trainable parameters: for every model it creates the shadow state as
an exact value copy of the live parameters, with every shadow
requires_grad flag cleared. -/
theorem c3_init_total_exact_copy (model : List Param) (decay : ℚ) (totalEpochs : ℕ) :
    (ModelEMA.init model decay totalEpochs).ema.map Param.value = model.map Param.value ∧
    (ModelEMA.init model decay totalEpochs).ema.map Param.requiresGrad
      = List.replicate model.length false := by
  rw [ModelEMA.init_ema]
  constructor
  · simp
  · induction model with
    | nil => simp
    | cons p ps ih =>
      rw [List.length_cons, List.replicate_succ]
      simpa using ih

/-- C10 counterexample. The claim says evaluate_accuracy raises an error
if and only if use_ema is true with ema_model absent, and that every call
with use_ema false succeeds. On the concrete call with use_ema false (and
an ema_model even supplied) over an empty stream, the function raises a
ZeroDivisionError, so a call with use_ema false can fail. -/
theorem c10_counterexample :
    evaluate_accuracy [] (fun _ => (1, 1)) false (some ⟨fun _ => (2, 2)⟩)
      = Except.error PyErr.zeroDivision :=
  rfl

/-- C10 amended. evaluate_accuracy raises its missing-EMA ValueError
exactly when use_ema is true and ema_model is None; with use_ema false
the result never depends on ema_model, and with use_ema false on a
stream with at least one sample the evaluation of the live model
succeeds (an empty stream instead raises a ZeroDivisionError, as C1
records). -/
theorem c10_ema_guard (s : List EvalBatch) (net : EvalModel) (u : Bool)
    (em : Option EvalEMARef) :
    ((evaluate_accuracy s net u em = Except.error PyErr.valueErrorEmaRequired)
        ↔ (u = true ∧ em = none)) ∧
    evaluate_accuracy s net false em = evaluate_accuracy s net false none ∧
    (0 < evalTotalSize s → ∃ p, evaluate_accuracy s net false em = Except.ok p) := by
  refine ⟨?_, ?_, ?_⟩
  · cases u <;> cases em <;>
      simp [evaluate_accuracy, evalRun_ne_emaRequired]
  · cases em <;> rfl
  · intro hn
    have h0 : (evalLoop net s).2.2 ≠ 0 := by
      rw [evalLoop_eq]
      show evalTotalSize s ≠ 0
      omega
    cases em <;>
      exact ⟨((evalLoop net s).1 / ((evalLoop net s).2.2 : ℚ),
              (evalLoop net s).2.1 / ((evalLoop net s).2.2 : ℚ)),
        by simp [evaluate_accuracy, evalRun, h0]⟩

/-- C10 witness: a one-batch stream with two samples evaluated with
use_ema false succeeds. -/
theorem c10_ema_guard_witness :
    0 < evalTotalSize [{ size := 2 }] ∧
    ∃ p, evaluate_accuracy [{ size := 2 }] (fun _ => (1, 0)) false none = Except.ok p :=
  ⟨by decide, (c10_ema_guard [{ size := 2 }] (fun _ => (1, 0)) false none).2.2 (by decide)⟩


/-- The live-checkpoint flag of the epoch tail, independent of which
early-stopping branch runs. -/
theorem epochTail_savedLive (testAcc emaTestAcc testLoss : ℚ) (st : CkptState) :
    (epochTail testAcc emaTestAcc testLoss st).savedLive = decide (testAcc > st.bestAcc) := by
  by_cases hm : testAcc * (8 / 10) + (1 - testLoss) * (2 / 10) > st.bestMetric <;>
    simp [epochTail, hm]

/-- The EMA-checkpoint flag of the epoch tail: the EMA accuracy is
compared against the shared best as already raised by the live check. -/
theorem epochTail_savedEma (testAcc emaTestAcc testLoss : ℚ) (st : CkptState) :
    (epochTail testAcc emaTestAcc testLoss st).savedEma
      = decide (emaTestAcc > (if testAcc > st.bestAcc then testAcc else st.bestAcc)) := by
  by_cases hm : testAcc * (8 / 10) + (1 - testLoss) * (2 / 10) > st.bestMetric <;>
    simp [epochTail, hm]

/-- The shared best accuracy after the epoch tail. -/
theorem epochTail_bestAcc (testAcc emaTestAcc testLoss : ℚ) (st : CkptState) :
    (epochTail testAcc emaTestAcc testLoss st).state.bestAcc
      = (if emaTestAcc > (if testAcc > st.bestAcc then testAcc else st.bestAcc) then emaTestAcc
         else if testAcc > st.bestAcc then testAcc else st.bestAcc) := by
  by_cases hm : testAcc * (8 / 10) + (1 - testLoss) * (2 / 10) > st.bestMetric <;>
    simp [epochTail, hm]

/-- C2 counterexample. The claim says the EMA checkpoint is written
exactly when the EMA validation accuracy strictly exceeds an EMA-only
best. Run two epochs from the start state: epoch 0 sees live accuracy
1/2 and EMA accuracy 3/5, epoch 1 sees live accuracy 9/10 and EMA
accuracy 7/10. After epoch 0 the EMA-only best of the independent-tracker
reading is 3/5, and at epoch 1 the EMA accuracy 7/10 strictly exceeds it,
so that reading writes the EMA checkpoint; the code, which compares the
EMA accuracy against the single shared best (just raised to 9/10 by the
live check), writes no EMA checkpoint at epoch 1. -/
theorem c2_counterexample :
    (epochTail (9 / 10) (7 / 10) (1 / 2)
        (epochTail (1 / 2) (3 / 5) (1 / 2)
          { bestAcc := 0, bestMetric := 0, noImprove := 0 }).state).savedEma = false ∧
    (specIndependentCkpt (1 / 2) (3 / 5) { bestLive := 0, bestEma := 0 }).1.bestEma = 3 / 5 ∧
    ((7 : ℚ) / 10 > 3 / 5) ∧
    (specIndependentCkpt (9 / 10) (7 / 10)
        (specIndependentCkpt (1 / 2) (3 / 5) { bestLive := 0, bestEma := 0 }).1).2.2 = true := by
  refine ⟨by norm_num [epochTail], by norm_num [specIndependentCkpt], by norm_num,
    by norm_num [specIndependentCkpt]⟩

/-- C2 amended. The checkpoint policy keeps one shared best-accuracy
record: each epoch the live checkpoint is written exactly when the live
validation accuracy strictly exceeds the shared best, which it then
raises, and the EMA checkpoint is written exactly when the EMA validation
accuracy strictly exceeds the shared best as already raised by the live
check of the same epoch; both writes may fire in the same epoch, and the
shared best is monotonically non-decreasing across the run. -/
theorem c2_shared_best_checkpoint (testAcc emaTestAcc testLoss : ℚ) (st : CkptState) :
    ((epochTail testAcc emaTestAcc testLoss st).savedLive = true ↔ testAcc > st.bestAcc) ∧
    ((epochTail testAcc emaTestAcc testLoss st).savedEma = true
        ↔ emaTestAcc > max st.bestAcc testAcc) ∧
    (epochTail testAcc emaTestAcc testLoss st).state.bestAcc
        = max (max st.bestAcc testAcc) emaTestAcc ∧
    st.bestAcc ≤ (epochTail testAcc emaTestAcc testLoss st).state.bestAcc := by
  have hb1 := ite_gt_eq_max st.bestAcc testAcc
  refine ⟨?_, ?_, ?_, ?_⟩
  · rw [epochTail_savedLive]
    exact decide_eq_true_iff
  · rw [epochTail_savedEma, hb1]
    exact decide_eq_true_iff
  · rw [epochTail_bestAcc, hb1, ite_gt_eq_max]
  · rw [epochTail_bestAcc, hb1, ite_gt_eq_max]
    exact le_trans (le_max_left _ _) (le_max_left _ _)

/-- C8. Each epoch the early-stopping metric is the composite
0.8 * val_accuracy + 0.2 * (1 - val_loss); when it strictly exceeds the
running best the best becomes the metric and the no-improvement counter
resets to 0 with no stop; otherwise the best is kept, the counter
increments, and training stops before the next epoch exactly when the
counter reaches the patience of 12. -/
theorem c8_composite_early_stop (testAcc emaTestAcc testLoss : ℚ) (st : CkptState) :
    (epochTail testAcc emaTestAcc testLoss st).state.bestMetric
        = max st.bestMetric (testAcc * (8 / 10) + (1 - testLoss) * (2 / 10)) ∧
    (epochTail testAcc emaTestAcc testLoss st).state.noImprove
        = (if testAcc * (8 / 10) + (1 - testLoss) * (2 / 10) > st.bestMetric then 0
           else st.noImprove + 1) ∧
    (epochTail testAcc emaTestAcc testLoss st).stop
        = (if testAcc * (8 / 10) + (1 - testLoss) * (2 / 10) > st.bestMetric then false
           else decide (st.noImprove + 1 ≥ 12)) := by
  by_cases hm : testAcc * (8 / 10) + (1 - testLoss) * (2 / 10) > st.bestMetric
  · unfold epochTail
    rw [if_pos hm, if_pos hm, if_pos hm]
    exact ⟨(max_eq_right hm.le).symm, rfl, rfl⟩
  · unfold epochTail
    rw [if_neg hm, if_neg hm, if_neg hm]
    exact ⟨(max_eq_left (not_lt.mp hm)).symm, rfl, rfl⟩

/-- C4. In a training epoch over a finite ordered batch list with
accum_steps at least 1, the optimizer-step block runs exactly after those
batches whose 0-based index i satisfies (i + 1) % accum_steps == 0 or
i + 1 == total_batches, listed in order as 1-based batch numbers; in
particular with accum_steps = 4 and 10 batches it fires after batches 4,
8 and 10, flushing the trailing partial window. -/
theorem c4_step_boundary (accumSteps : ℕ) (bs : List TrainBatch) (h : 1 ≤ accumSteps) :
    (trainEpoch accumSteps bs).stepsAt
        = (List.range' 1 bs.length).filter
            (fun j => j % accumSteps == 0 || j == bs.length) ∧
    (trainEpoch 4 (List.replicate 10 { size := 1, loss := 0, correct := 1 })).stepsAt
        = [4, 8, 10] := by
  constructor
  · rw [trainEpoch, trainEpochGo_stepsAt]
    rfl
  · decide

/-- C4 witness: accum_steps = 4 satisfies the hypothesis and the
step-boundary characterization holds for the concrete 10-batch epoch. -/
theorem c4_step_boundary_witness :
    1 ≤ 4 ∧
    (trainEpoch 4 (List.replicate 10 { size := 1, loss := 0, correct := 1 })).stepsAt
        = (List.range' 1 (List.replicate 10
            { size := 1, loss := 0, correct := (1 : ℕ) } : List TrainBatch).length).filter
            (fun j => j % 4 == 0
              || j == (List.replicate 10
                  { size := 1, loss := 0, correct := (1 : ℕ) } : List TrainBatch).length) :=
  ⟨by decide,
   (c4_step_boundary 4 (List.replicate 10 { size := 1, loss := 0, correct := 1 })
      (by decide)).1⟩

/-- C9. Per-epoch training metrics and evaluation metrics are
sample-weighted: the reported mean training loss is the per-batch mean
loss multiplied back by accum_steps weighted by each batch sample count
and divided by the total sample count, the mean accuracies divide total
correct counts by total samples seen, evaluation likewise divides
sample-weighted sums by the total sample count, and for batches of sizes
[8, 8, 8, 6] the mean training accuracy equals
(8*a1 + 8*a2 + 8*a3 + 6*a4) / 30 rather than a plain 4-way average. -/
theorem c9_sample_weighted (accumSteps : ℕ) (bs : List TrainBatch) (net : EvalModel)
    (s : List EvalBatch) (ha : 1 ≤ accumSteps) (hb : 0 < totalSize bs)
    (hs : 0 < evalTotalSize s) :
    trainEpochMetrics accumSteps bs
        = Except.ok (weightedLossSum bs / (totalSize bs : ℚ),
                     totalCorrect bs / (totalSize bs : ℚ)) ∧
    evaluate_accuracy s net false none
        = Except.ok (evalCorrectSum net s / (evalTotalSize s : ℚ),
                     evalLossSum net s / (evalTotalSize s : ℚ)) ∧
    ∀ (c1 c2 c3 c4 : ℕ) (l1 l2 l3 l4 : ℚ),
      (trainEpoch accumSteps [{ size := 8, loss := l1, correct := c1 },
          { size := 8, loss := l2, correct := c2 },
          { size := 8, loss := l3, correct := c3 },
          { size := 6, loss := l4, correct := c4 }]).trainAccSum
        / ((trainEpoch accumSteps [{ size := 8, loss := l1, correct := c1 },
            { size := 8, loss := l2, correct := c2 },
            { size := 8, loss := l3, correct := c3 },
            { size := 6, loss := l4, correct := c4 }]).n : ℚ)
        = (8 * ((c1 : ℚ) / 8) + 8 * ((c2 : ℚ) / 8) + 8 * ((c3 : ℚ) / 8)
            + 6 * ((c4 : ℚ) / 6)) / 30 := by
  have hca : (accumSteps : ℚ) ≠ 0 := Nat.cast_ne_zero.mpr (by omega)
  refine ⟨?_, ?_, ?_⟩
  · have hn : (trainEpoch accumSteps bs).n = totalSize bs := by
      rw [trainEpoch, trainEpochGo_n]
      simp
    have hl : (trainEpoch accumSteps bs).trainLossSum = weightedLossSum bs := by
      rw [trainEpoch, trainEpochGo_lossSum, zero_add, weightedLossSum]
      exact congrArg List.sum (List.map_congr_left fun b _ => by rw [div_mul_cancel₀ _ hca])
    have hacc : (trainEpoch accumSteps bs).trainAccSum = totalCorrect bs := by
      rw [trainEpoch, trainEpochGo_accSum, zero_add]
    rw [trainEpochMetrics]
    simp only [hn, hl, hacc]
    rw [if_neg (by omega)]
  · have h0 : ¬ evalTotalSize s = 0 := by omega
    show evalRun net s = _
    simp [evalRun, evalLoop_eq, h0]
  · intro c1 c2 c3 c4 l1 l2 l3 l4
    have hacc := trainEpochGo_accSum accumSteps 4
      [{ size := 8, loss := l1, correct := c1 }, { size := 8, loss := l2, correct := c2 },
       { size := 8, loss := l3, correct := c3 }, { size := 6, loss := l4, correct := c4 }]
    have hn := trainEpochGo_n accumSteps 4
      [{ size := 8, loss := l1, correct := c1 }, { size := 8, loss := l2, correct := c2 },
       { size := 8, loss := l3, correct := c3 }, { size := 6, loss := l4, correct := c4 }]
    rw [trainEpoch]
    show (trainEpochGo accumSteps 4 0 _ _).trainAccSum / ((trainEpochGo accumSteps 4 0 _ _).n : ℚ) = _
    rw [hacc, hn]
    simp only [totalCorrect, totalSize, List.map_cons, List.map_nil, List.sum_cons,
      List.sum_nil]
    push_cast
    ring

/-- C9 witness: a one-batch training epoch with two samples and a
one-batch validation stream with three samples satisfy the hypotheses,
and the sample-weighted training metrics are produced. -/
theorem c9_sample_weighted_witness :
    1 ≤ 1 ∧ 0 < totalSize [{ size := 2, loss := 1, correct := 1 }] ∧
    0 < evalTotalSize [{ size := 3 }] ∧
    trainEpochMetrics 1 [{ size := 2, loss := 1, correct := 1 }]
        = Except.ok
            (weightedLossSum [{ size := 2, loss := 1, correct := 1 }]
               / (totalSize [{ size := 2, loss := 1, correct := 1 }] : ℚ),
             totalCorrect [{ size := 2, loss := 1, correct := 1 }]
               / (totalSize [{ size := 2, loss := 1, correct := 1 }] : ℚ)) :=
  ⟨by decide, by decide, by decide,
   (c9_sample_weighted 1 [{ size := 2, loss := 1, correct := 1 }] (fun _ => (1, 0))
      [{ size := 3 }] (by decide) (by decide) (by decide)).1⟩

/-- C5. Each call of ModelEMA.update leaves the live parameter list
unmodified and sets every shadow parameter to
decay * shadow_old + (1 - decay) * live, keeping its requires_grad flag;
the zip pairs shadow and live parameters positionally. -/
theorem c5_ema_update_formula (e : ModelEMA) (m : List Param) (currentEpoch i : ℕ)
    (h1 : i < e.ema.length) (h2 : i < m.length)
    (h3 : i < ((ModelEMA.update e m currentEpoch).1).ema.length) :
    (ModelEMA.update e m currentEpoch).2 = m ∧
    (((ModelEMA.update e m currentEpoch).1).ema.get ⟨i, h3⟩).value
      = emaDecay e.initialDecay e.minDecay e.totalEpochs currentEpoch
          * (e.ema.get ⟨i, h1⟩).value
        + (1 - emaDecay e.initialDecay e.minDecay e.totalEpochs currentEpoch)
          * (m.get ⟨i, h2⟩).value ∧
    (((ModelEMA.update e m currentEpoch).1).ema.get ⟨i, h3⟩).requiresGrad
      = (e.ema.get ⟨i, h1⟩).requiresGrad := by
  refine ⟨rfl, ?_, ?_⟩ <;>
    simp only [ModelEMA.update, List.get_eq_getElem, List.getElem_zipWith] <;>
    ring_nf

/-- C5 witness: a concrete one-parameter shadow and live model at
epoch 0. -/
theorem c5_ema_update_formula_witness :
    0 < ({ ema := [{ value := 1, requiresGrad := false }], initialDecay := 999 / 1000,
           minDecay := 995 / 1000, totalEpochs := 50 } : ModelEMA).ema.length ∧
    (ModelEMA.update
        { ema := [{ value := 1, requiresGrad := false }], initialDecay := 999 / 1000,
          minDecay := 995 / 1000, totalEpochs := 50 }
        [{ value := 3, requiresGrad := true }] 0).2
      = [{ value := 3, requiresGrad := true }] :=
  ⟨by decide,
   (c5_ema_update_formula
      { ema := [{ value := 1, requiresGrad := false }], initialDecay := 999 / 1000,
        minDecay := 995 / 1000, totalEpochs := 50 }
      [{ value := 3, requiresGrad := true }] 0 0 (by decide) (by decide) (by decide)).1⟩

/-- C6. The decay used by ModelEMA.update equals
max(initial_decay - (initial_decay - min_decay) * (epoch / total_epochs),
min_decay); with min_decay at most initial_decay and a positive
total_epochs it equals initial_decay at epoch 0, is monotonically
non-increasing in the epoch, and equals min_decay for every epoch at or
beyond total_epochs. -/
theorem c6_decay_schedule (initialDecay minDecay : ℚ) (T a b c : ℕ)
    (hT : 0 < T) (hmin : minDecay ≤ initialDecay) (hab : a ≤ b) (hc : T ≤ c) :
    emaDecay initialDecay minDecay T 0 = initialDecay ∧
    emaDecay initialDecay minDecay T b ≤ emaDecay initialDecay minDecay T a ∧
    emaDecay initialDecay minDecay T c = minDecay := by
  have hT' : (0 : ℚ) < (T : ℚ) := by exact_mod_cast hT
  have hsub : (0 : ℚ) ≤ initialDecay - minDecay := sub_nonneg.mpr hmin
  refine ⟨?_, ?_, ?_⟩
  · rw [emaDecay]
    norm_num
    exact hmin
  · rw [emaDecay, emaDecay]
    refine max_le_max ?_ le_rfl
    have hdiv : (a : ℚ) / (T : ℚ) ≤ (b : ℚ) / (T : ℚ) := by
      have hab' : (a : ℚ) ≤ (b : ℚ) := Nat.cast_le.mpr hab
      gcongr
    have := mul_le_mul_of_nonneg_left hdiv hsub
    linarith
  · rw [emaDecay]
    have h1 : (1 : ℚ) ≤ (c : ℚ) / (T : ℚ) := by
      rw [one_le_div hT']
      exact_mod_cast hc
    have h2 : initialDecay - minDecay ≤ (initialDecay - minDecay) * ((c : ℚ) / (T : ℚ)) :=
      le_mul_of_one_le_right hsub h1
    exact max_eq_right (by linarith)

/-- C6 witness: initial decay 1, min decay 1/2, total epochs 2, with
epochs 1 and 3 for monotonicity and epoch 4 for the clamp. -/
theorem c6_decay_schedule_witness :
    0 < 2 ∧ (1 / 2 : ℚ) ≤ 1 ∧ 1 ≤ 3 ∧ 2 ≤ 4 ∧
    emaDecay 1 (1 / 2) 2 0 = 1 ∧
    emaDecay 1 (1 / 2) 2 3 ≤ emaDecay 1 (1 / 2) 2 1 ∧
    emaDecay 1 (1 / 2) 2 4 = 1 / 2 := by
  have h := c6_decay_schedule 1 (1 / 2) 2 1 3 4 (by norm_num) (by norm_num)
    (by norm_num) (by norm_num)
  exact ⟨by norm_num, by norm_num, by norm_num, by norm_num, h.1, h.2.1, h.2.2⟩

/-- One switch block appends the epoch to the cosine trace exactly when
the epoch is before 12. -/
theorem schedulerBlock_cosineSteps (cosF : ℕ → List ℚ → List ℚ)
    (platF : ℚ → List ℚ → List ℚ) (epoch : ℕ) (testAcc : ℚ) (st : SchedState) :
    (schedulerBlock cosF platF epoch testAcc st).cosineSteps
      = st.cosineSteps ++ (if epoch < 12 then [epoch] else []) := by
  rw [schedulerBlock]
  by_cases he : epoch < 12
  · simp [he]
  · by_cases he12 : epoch = 12 <;> simp [he, he12]

/-- One switch block appends the epoch to the plateau trace exactly when
the epoch is at or after 12. -/
theorem schedulerBlock_plateauSteps (cosF : ℕ → List ℚ → List ℚ)
    (platF : ℚ → List ℚ → List ℚ) (epoch : ℕ) (testAcc : ℚ) (st : SchedState) :
    (schedulerBlock cosF platF epoch testAcc st).plateauSteps
      = st.plateauSteps ++ (if epoch < 12 then [] else [epoch]) := by
  rw [schedulerBlock]
  by_cases he : epoch < 12
  · simp [he]
  · by_cases he12 : epoch = 12 <;> simp [he, he12]

/-- Across a run of the switch block, the cosine scheduler steps exactly
at the epochs before 12, in order. -/
theorem runScheduler_cosineSteps (cosF : ℕ → List ℚ → List ℚ)
    (platF : ℚ → List ℚ → List ℚ) (accs : ℕ → ℚ) (lrs0 : List ℚ) (numEpochs : ℕ) :
    (runScheduler cosF platF accs lrs0 numEpochs).cosineSteps
      = (List.range numEpochs).filter (fun e => decide (e < 12)) := by
  induction numEpochs with
  | zero => rfl
  | succ k ih =>
    rw [runScheduler, schedulerBlock_cosineSteps, ih, List.range_succ, List.filter_append]
    by_cases hk : k < 12 <;> simp [hk]

/-- Across a run of the switch block, the plateau scheduler steps exactly
at the epochs at or after 12, in order. -/
theorem runScheduler_plateauSteps (cosF : ℕ → List ℚ → List ℚ)
    (platF : ℚ → List ℚ → List ℚ) (accs : ℕ → ℚ) (lrs0 : List ℚ) (numEpochs : ℕ) :
    (runScheduler cosF platF accs lrs0 numEpochs).plateauSteps
      = (List.range numEpochs).filter (fun e => decide (12 ≤ e)) := by
  induction numEpochs with
  | zero => rfl
  | succ k ih =>
    rw [runScheduler, schedulerBlock_plateauSteps, ih, List.range_succ, List.filter_append]
    by_cases hk : k < 12
    · simp [hk, Nat.not_le.mpr hk]
    · simp [hk, Nat.not_lt.mp hk]

/-- C7. For every pair of library scheduler steppers (each rewriting only
group learning rates), after the epoch-12 switch block each group
initial_lr and the plateau base_lrs equal the current learning rates as
left by the cosine schedule at the end of epoch 11, not the originally
configured rates; and across the whole run the cosine scheduler steps
exactly at the epochs before 12 while the plateau scheduler steps exactly
at every epoch at or after 12, so the transition is one-way. Because the
equality holds for an arbitrary plateau stepper, the baseline is captured
before the first plateau step. -/
theorem c7_scheduler_handoff (cosF : ℕ → List ℚ → List ℚ)
    (platF : ℚ → List ℚ → List ℚ) (accs : ℕ → ℚ) (lrs0 : List ℚ) (numEpochs : ℕ) :
    (runScheduler cosF platF accs lrs0 13).initialLrs
        = (runScheduler cosF platF accs lrs0 12).lrs ∧
    (runScheduler cosF platF accs lrs0 13).baseLrs
        = (runScheduler cosF platF accs lrs0 12).lrs ∧
    (runScheduler cosF platF accs lrs0 numEpochs).cosineSteps
        = (List.range numEpochs).filter (fun e => decide (e < 12)) ∧
    (runScheduler cosF platF accs lrs0 numEpochs).plateauSteps
        = (List.range numEpochs).filter (fun e => decide (12 ≤ e)) := by
  have h13 : runScheduler cosF platF accs lrs0 13
      = schedulerBlock cosF platF 12 (accs 12) (runScheduler cosF platF accs lrs0 12) := rfl
  refine ⟨?_, ?_, runScheduler_cosineSteps cosF platF accs lrs0 numEpochs,
    runScheduler_plateauSteps cosF platF accs lrs0 numEpochs⟩ <;>
  · rw [h13]
    simp [schedulerBlock]
